import Mathlib

/-!
Shallow embedding of the pynvgt compiler-invocation adapter
(`src/pynvgt/compiler.py`) together with the one constant it needs from the
installer (`src/pynvgt/installer.py`).  Python dictionaries are embedded as
insertion-ordered association lists, the filesystem and the child-process
spawn as explicit parameters, and Python truthiness tests (`if path:`,
`if options.settings_file:`) are translated exactly.
-/

/-- Supported NVGT compilation platforms (`NVGTPlatform` enum). -/
inductive NVGTPlatform where
  | AUTO
  | WINDOWS
  | LINUX
  | MAC
  | ANDROID
deriving DecidableEq, Repr

/-- The `value` attribute of each `NVGTPlatform` member. -/
def NVGTPlatform.value : NVGTPlatform → String
  | .AUTO => "auto"
  | .WINDOWS => "windows"
  | .LINUX => "linux"
  | .MAC => "mac"
  | .ANDROID => "android"

/-- NVGT warning handling levels (`NVGTWarningLevel` enum). -/
inductive NVGTWarningLevel where
  | IGNORE
  | PRINT
  | TREAT_AS_ERROR
deriving DecidableEq, Repr

/-- The `value` attribute of each `NVGTWarningLevel` member. -/
def NVGTWarningLevel.value : NVGTWarningLevel → Nat
  | .IGNORE => 0
  | .PRINT => 1
  | .TREAT_AS_ERROR => 2

/-- Result of an NVGT compiler operation (`CompilationResult`, which inherits
`success` and `error` from `NVGTResult`).  Field defaults mirror the
dataclass defaults. -/
structure CompilationResult where
  success : Bool
  error : Option String := none
  stdout : String := ""
  stderr : String := ""
  return_code : Int := 0
  command : Option String := none
deriving DecidableEq, Repr

/-- `CompilationResult.success_result`: result of a process that was actually
spawned and ran to completion; `success` is `return_code == 0`. -/
def CompilationResult.success_result (stdout stderr : String) (return_code : Int)
    (command : String) : CompilationResult :=
  { success := return_code == 0
    stdout := stdout
    stderr := stderr
    return_code := return_code
    command := some command }

/-- `CompilationResult.error_result`: failure value with `return_code`
defaulting to the sentinel `-1`; the other fields keep their defaults. -/
def CompilationResult.error_result (error : String) (return_code : Int := -1) :
    CompilationResult :=
  { success := false, error := some error, return_code := return_code }

/-- Configuration options for NVGT compilation (`NVGTCompilerOptions`).
`config_properties` is a Python dict iterated in insertion order, embedded as
an association list in that order. -/
structure NVGTCompilerOptions where
  compile_release : Bool := false
  compile_debug : Bool := false
  run_with_debugger : Bool := false
  platform : Option NVGTPlatform := none
  quiet : Bool := false
  super_quiet : Bool := false
  warning_level : NVGTWarningLevel := .IGNORE
  assets : List String := []
  document_assets : List String := []
  includes : List String := []
  include_directories : List String := []
  config_properties : List (String × String) := []
  settings_file : Option String := none
  script_args : List String := []
deriving DecidableEq, Repr

/-- Abstract view of the host: `platform.system().lower()` and the two
`pathlib` queries the adapter performs. -/
structure FileSystem where
  system : String
  is_file : String → Bool
  file_exists : String → Bool

/-- Python truthiness of an `Optional[str]`: `None` and `""` are falsy. -/
def optTruthy : Option String → Bool
  | none => false
  | some s => s != ""

/-- The Windows default install location probed by auto-detection. -/
def windowsDefaultPath : String := "C:/nvgt/nvgt.exe"

/-- The macOS default install location probed by auto-detection. -/
def darwinDefaultPath : String := "/Applications/NVGT.app/Contents/MacOS/NVGT"

/-- `NVGTBuild.linux_install_path` from `src/pynvgt/installer.py`: where the
installer puts NVGT on Linux. -/
def NVGTBuild.linux_install_path : String := "/opt/nvgt"

/-- `detect_nvgt_installation(path)`: if `path` is truthy, check it is an
existing regular file; otherwise probe the platform-specific default
location of the running host (PATH search is commented out in the source). -/
def detect_nvgt_installation (fs : FileSystem) (path : Option String := none) :
    Option String :=
  if optTruthy path then
    let nvgt_path := path.getD ""
    if fs.is_file nvgt_path && fs.file_exists nvgt_path then some nvgt_path
    else none
  else
    if fs.system = "windows" then
      if fs.file_exists windowsDefaultPath then some windowsDefaultPath else none
    else if fs.system = "darwin" then
      if fs.file_exists darwinDefaultPath then some darwinDefaultPath else none
    else none

namespace NVGTCompiler

/-- `NVGTCompiler.__init__`: `self.nvgt_binary = nvgt_binary_path or
detect_nvgt_installation()`, then raise `RuntimeError` if the result is
falsy.  The raise is embedded as `Except.error`. -/
def init (fs : FileSystem) (nvgt_binary_path : Option String := none) :
    Except String String :=
  let nvgt_binary :=
    if optTruthy nvgt_binary_path then nvgt_binary_path
    else detect_nvgt_installation fs
  if optTruthy nvgt_binary then .ok (nvgt_binary.getD "")
  else .error
    "NVGT installation not found. Please ensure NVGT is installed and accessible."

/-- `NVGTCompiler.build_command`: sequential `cmd.append`/`cmd.extend` calls
translated one-for-one; each `let cmd := ...` is one block of the Python
method. -/
def build_command (nvgt_binary script_path : String)
    (options : NVGTCompilerOptions) : List String :=
  let cmd := [nvgt_binary]
  -- Compilation modes (mutually exclusive): if / elif / elif
  let cmd :=
    if options.compile_release then cmd ++ ["-c"]
    else if options.compile_debug then cmd ++ ["-C"]
    else if options.run_with_debugger then cmd ++ ["-d"]
    else cmd
  -- Platform selection (an enum member is always truthy)
  let cmd :=
    match options.platform with
    | some p => cmd ++ ["-p" ++ p.value]
    | none => cmd
  -- Output options: if super_quiet / elif quiet
  let cmd :=
    if options.super_quiet then cmd ++ ["-Q"]
    else if options.quiet then cmd ++ ["-q"]
    else cmd
  -- Warning level
  let cmd :=
    if options.warning_level ≠ NVGTWarningLevel.IGNORE then
      cmd ++ ["-w" ++ toString options.warning_level.value]
    else cmd
  -- Assets
  let cmd := cmd ++ options.assets.map (fun asset => "-a" ++ asset)
  -- Document assets
  let cmd := cmd ++ options.document_assets.map (fun doc_asset => "-A" ++ doc_asset)
  -- Includes
  let cmd := cmd ++ options.includes.map (fun i => "-i" ++ i)
  -- Include directories
  let cmd := cmd ++ options.include_directories.map (fun dir => "-I" ++ dir)
  -- Configuration properties (dict iterated in insertion order)
  let cmd := cmd ++ options.config_properties.map (fun nv => "-s" ++ nv.1 ++ "=" ++ nv.2)
  -- Settings file (Python truthiness: `if options.settings_file:`)
  let cmd :=
    match options.settings_file with
    | some s => if s != "" then cmd ++ ["-S" ++ s] else cmd
    | none => cmd
  -- Script file (required)
  let cmd := cmd ++ [script_path]
  -- Script arguments (`if options.script_args:` is list non-emptiness)
  let cmd := if options.script_args ≠ [] then cmd ++ ["--"] ++ options.script_args else cmd
  cmd

end NVGTCompiler

/-- Outcome of handing a command line to `_run_command`: either the child
process was spawned and ran to completion (decoded output streams and exit
status), or an exception was raised while launching/running it. -/
inductive SpawnOutcome where
  | completed (return_code : Int) (stdout stderr : String)
  | raised (message : String)
deriving DecidableEq, Repr

/-- `" ".join(f'"{arg}"' for arg in cmd)`: the shell-quoted command string. -/
def quoteJoin (cmd : List String) : String :=
  String.intercalate " " (cmd.map (fun arg => "\"" ++ arg ++ "\""))

namespace NVGTCompiler

/-- `NVGTCompiler._execute_command`.  The filesystem check
`Path(script_path).exists()` is `script_exists`, and the environment's
response to running a command string is the `spawn` function;
`try`/`except Exception` around `_run_command` is the match on its outcome. -/
def execute_command (nvgt_binary script_path : String)
    (options : NVGTCompilerOptions) (script_exists : Bool)
    (spawn : String → SpawnOutcome) : CompilationResult :=
  -- Verify script file exists
  if !script_exists then
    CompilationResult.error_result ("Script file not found: " ++ script_path)
  else
    -- Build and execute command
    let cmd := build_command nvgt_binary script_path options
    let command_str := quoteJoin cmd
    match spawn command_str with
    | .completed return_code stdout stderr =>
        CompilationResult.success_result stdout stderr return_code command_str
    | .raised e =>
        CompilationResult.error_result ("Failed to execute command: " ++ e)

/-- `NVGTCompiler.compile_release`: options preset `compile_release=True`. -/
def compile_release (nvgt_binary script_path : String)
    (kwargs : NVGTCompilerOptions) (script_exists : Bool)
    (spawn : String → SpawnOutcome) : CompilationResult :=
  execute_command nvgt_binary script_path
    { kwargs with compile_release := true } script_exists spawn

/-- `NVGTCompiler.compile_debug`: options preset `compile_debug=True`. -/
def compile_debug (nvgt_binary script_path : String)
    (kwargs : NVGTCompilerOptions) (script_exists : Bool)
    (spawn : String → SpawnOutcome) : CompilationResult :=
  execute_command nvgt_binary script_path
    { kwargs with compile_debug := true } script_exists spawn

/-- `NVGTCompiler.run_script`: no mode preset (run directly). -/
def run_script (nvgt_binary script_path : String)
    (kwargs : NVGTCompilerOptions) (script_exists : Bool)
    (spawn : String → SpawnOutcome) : CompilationResult :=
  execute_command nvgt_binary script_path kwargs script_exists spawn

/-- `NVGTCompiler.debug_script`: options preset `run_with_debugger=True`. -/
def debug_script (nvgt_binary script_path : String)
    (kwargs : NVGTCompilerOptions) (script_exists : Bool)
    (spawn : String → SpawnOutcome) : CompilationResult :=
  execute_command nvgt_binary script_path
    { kwargs with run_with_debugger := true } script_exists spawn

/-- `NVGTCompiler.get_version`: run `[binary, "-V"]`; on success the recorded
command is the unquoted `" ".join(cmd)`. -/
def get_version (nvgt_binary : String) (spawn : String → SpawnOutcome) :
    CompilationResult :=
  let cmd := [nvgt_binary, "-V"]
  match spawn (quoteJoin cmd) with
  | .completed return_code stdout stderr =>
      CompilationResult.success_result stdout stderr return_code
        (String.intercalate " " cmd)
  | .raised e =>
      CompilationResult.error_result ("Failed to get version: " ++ e)

/-- `NVGTCompiler.get_help`: run `[binary, "-h"]`. -/
def get_help (nvgt_binary : String) (spawn : String → SpawnOutcome) :
    CompilationResult :=
  let cmd := [nvgt_binary, "-h"]
  match spawn (quoteJoin cmd) with
  | .completed return_code stdout stderr =>
      CompilationResult.success_result stdout stderr return_code
        (String.intercalate " " cmd)
  | .raised e =>
      CompilationResult.error_result ("Failed to get help: " ++ e)

end NVGTCompiler

/-! ### The flag groups of spec §4.2, in its fixed construction order -/

/-- Step 2: the mode flag group (at most one of `-c`, `-C`, `-d`). -/
def mode_flags (o : NVGTCompilerOptions) : List String :=
  if o.compile_release then ["-c"]
  else if o.compile_debug then ["-C"]
  else if o.run_with_debugger then ["-d"]
  else []

/-- Step 3: the target-platform flag group. -/
def platform_flags (o : NVGTCompilerOptions) : List String :=
  match o.platform with
  | some p => ["-p" ++ p.value]
  | none => []

/-- Step 4: the verbosity flag group (super-quiet wins over quiet). -/
def verbosity_flags (o : NVGTCompilerOptions) : List String :=
  if o.super_quiet then ["-Q"] else if o.quiet then ["-q"] else []

/-- Step 5: the warning-level flag group (nothing for `IGNORE`). -/
def warning_flags (o : NVGTCompilerOptions) : List String :=
  if o.warning_level ≠ NVGTWarningLevel.IGNORE then
    ["-w" ++ toString o.warning_level.value]
  else []

/-- Step 6: one `-a` flag per asset, in input order. -/
def asset_flags (o : NVGTCompilerOptions) : List String :=
  o.assets.map (fun asset => "-a" ++ asset)

/-- Step 7: one `-A` flag per document asset, in input order. -/
def document_asset_flags (o : NVGTCompilerOptions) : List String :=
  o.document_assets.map (fun doc_asset => "-A" ++ doc_asset)

/-- Step 8: one `-i` flag per include, in input order. -/
def include_flags (o : NVGTCompilerOptions) : List String :=
  o.includes.map (fun i => "-i" ++ i)

/-- Step 9: one `-I` flag per include directory, in input order. -/
def include_dir_flags (o : NVGTCompilerOptions) : List String :=
  o.include_directories.map (fun dir => "-I" ++ dir)

/-- Step 10: one `-s name=value` flag per config property, insertion order. -/
def config_property_flags (o : NVGTCompilerOptions) : List String :=
  o.config_properties.map (fun nv => "-s" ++ nv.1 ++ "=" ++ nv.2)

/-- Step 11: the settings-file flag group (emitted when truthy). -/
def settings_flags (o : NVGTCompilerOptions) : List String :=
  match o.settings_file with
  | some s => if s != "" then ["-S" ++ s] else []
  | none => []

/-- Step 13: the script-argument tail: `--` then the raw arguments, only when
`script_args` is non-empty. -/
def script_args_tail (o : NVGTCompilerOptions) : List String :=
  if o.script_args ≠ [] then ["--"] ++ o.script_args else []

/-- Steps 2–11 concatenated: everything the builder emits between the binary
path and the script path. -/
def flag_region (o : NVGTCompilerOptions) : List String :=
  mode_flags o ++ platform_flags o ++ verbosity_flags o ++ warning_flags o ++
  asset_flags o ++ document_asset_flags o ++ include_flags o ++
  include_dir_flags o ++ config_property_flags o ++ settings_flags o

/-- Pushing a conditional append out of a one-branch `if`. -/
theorem ite_append_one (c : Prop) [Decidable c] (l x : List String) :
    (if c then l ++ x else l) = l ++ (if c then x else []) := by
  split <;> simp

/-- Factoring a common front list out of both branches of an `if`. -/
theorem ite_append_both (c : Prop) [Decidable c] (l x y : List String) :
    (if c then l ++ x else l ++ y) = l ++ (if c then x else y) := by
  split <;> rfl

/-- Pushing a conditional two-part append (the `--` tail) out of an `if`. -/
theorem ite_append_pair (c : Prop) [Decidable c] (l x y : List String) :
    (if c then l ++ x ++ y else l) = l ++ (if c then x ++ y else []) := by
  split <;> simp

/-- The built vector decomposes into binary path, flag region, script path
and script-argument tail, in that order. -/
theorem build_command_decomp (b s : String) (o : NVGTCompilerOptions) :
    NVGTCompiler.build_command b s o =
      [b] ++ flag_region o ++ [s] ++ script_args_tail o := by
  rcases o with ⟨cr, cd, rwd, plat, q, sq, wl, a1, a2, a3, a4, cp, sf, sa⟩
  cases plat <;> cases sf <;>
    simp only [NVGTCompiler.build_command, flag_region, mode_flags,
      platform_flags, verbosity_flags, warning_flags, asset_flags,
      document_asset_flags, include_flags, include_dir_flags,
      config_property_flags, settings_flags, script_args_tail,
      ite_append_one, ite_append_both, ite_append_pair] <;>
    simp [List.append_assoc]

/-! ### Which strings are mode and verbosity flags -/

/-- The three mutually exclusive compilation-mode flags. -/
def isModeFlag (x : String) : Bool := x == "-c" || x == "-C" || x == "-d"

/-- The two mutually exclusive verbosity flags. -/
def isVerbosityFlag (x : String) : Bool := x == "-Q" || x == "-q"

/-- A string whose second character is `c` differs from a two-character
string whose second character is not `c`. -/
theorem ne_of_start {x t : String} {c d : Char} {r : List Char}
    (hx : x.data = '-' :: c :: r) (ht : t.data = ['-', d]) (hcd : c ≠ d) :
    x ≠ t := by
  intro he
  rw [he, ht] at hx
  simp at hx
  exact hcd hx.1.symm

/-- No string starting `-c₀` for `c₀ ∉ {c, C, d}` is a mode flag. -/
theorem isModeFlag_eq_false_of_start {x : String} {c : Char} {r : List Char}
    (hx : x.data = '-' :: c :: r)
    (h1 : c ≠ 'c') (h2 : c ≠ 'C') (h3 : c ≠ 'd') :
    isModeFlag x = false := by
  have e1 : x ≠ "-c" := ne_of_start hx rfl h1
  have e2 : x ≠ "-C" := ne_of_start hx rfl h2
  have e3 : x ≠ "-d" := ne_of_start hx rfl h3
  simp [isModeFlag, e1, e2, e3]

/-- No string starting `-c₀` for `c₀ ∉ {Q, q}` is a verbosity flag. -/
theorem isVerbosityFlag_eq_false_of_start {x : String} {c : Char}
    {r : List Char} (hx : x.data = '-' :: c :: r)
    (h1 : c ≠ 'Q') (h2 : c ≠ 'q') :
    isVerbosityFlag x = false := by
  have e1 : x ≠ "-Q" := ne_of_start hx rfl h1
  have e2 : x ≠ "-q" := ne_of_start hx rfl h2
  simp [isVerbosityFlag, e1, e2]

/-- Every platform flag starts with `-p`. -/
theorem platform_flags_start (o : NVGTCompilerOptions) :
    ∀ x ∈ platform_flags o, ∃ r : List Char, x.data = '-' :: 'p' :: r := by
  unfold platform_flags
  cases o.platform with
  | none => simp
  | some p =>
      intro x hx
      simp at hx
      subst hx
      exact ⟨p.value.data, by rw [String.data_append]; rfl⟩

/-- Every warning flag starts with `-w`. -/
theorem warning_flags_start (o : NVGTCompilerOptions) :
    ∀ x ∈ warning_flags o, ∃ r : List Char, x.data = '-' :: 'w' :: r := by
  unfold warning_flags
  split
  · intro x hx
    simp at hx
    subst hx
    exact ⟨(toString o.warning_level.value).data, by rw [String.data_append]; rfl⟩
  · simp

/-- Every element of a list mapped under `p ++ ·` starts with `p`'s two
characters. -/
theorem map_append_start {l : List String} {p : String} {c : Char}
    (hp : p.data = ['-', c]) :
    ∀ x ∈ l.map (fun a => p ++ a), ∃ r : List Char, x.data = '-' :: c :: r := by
  intro x hx
  rcases List.mem_map.1 hx with ⟨a, _, rfl⟩
  exact ⟨a.data, by rw [String.data_append, hp]; rfl⟩

/-- Every asset flag starts with `-a`. -/
theorem asset_flags_start (o : NVGTCompilerOptions) :
    ∀ x ∈ asset_flags o, ∃ r : List Char, x.data = '-' :: 'a' :: r :=
  map_append_start rfl

/-- Every document-asset flag starts with `-A`. -/
theorem document_asset_flags_start (o : NVGTCompilerOptions) :
    ∀ x ∈ document_asset_flags o, ∃ r : List Char, x.data = '-' :: 'A' :: r :=
  map_append_start rfl

/-- Every include flag starts with `-i`. -/
theorem include_flags_start (o : NVGTCompilerOptions) :
    ∀ x ∈ include_flags o, ∃ r : List Char, x.data = '-' :: 'i' :: r :=
  map_append_start rfl

/-- Every include-directory flag starts with `-I`. -/
theorem include_dir_flags_start (o : NVGTCompilerOptions) :
    ∀ x ∈ include_dir_flags o, ∃ r : List Char, x.data = '-' :: 'I' :: r :=
  map_append_start rfl

/-- Every config-property flag starts with `-s`. -/
theorem config_property_flags_start (o : NVGTCompilerOptions) :
    ∀ x ∈ config_property_flags o, ∃ r : List Char, x.data = '-' :: 's' :: r := by
  intro x hx
  rcases List.mem_map.1 hx with ⟨nv, _, rfl⟩
  exact ⟨(nv.1 ++ "=" ++ nv.2).data,
    by rw [show "-s" ++ nv.1 ++ "=" ++ nv.2 = "-s" ++ (nv.1 ++ "=" ++ nv.2) by
          simp [String.append_assoc],
        String.data_append]; rfl⟩

/-- Every settings flag starts with `-S`. -/
theorem settings_flags_start (o : NVGTCompilerOptions) :
    ∀ x ∈ settings_flags o, ∃ r : List Char, x.data = '-' :: 'S' :: r := by
  unfold settings_flags
  cases o.settings_file with
  | none => simp
  | some s =>
      intro x hx
      by_cases hs : s = ""
      · subst hs
        simp at hx
      · simp [hs] at hx
        subst hx
        exact ⟨s.data, by rw [String.data_append]; rfl⟩

/-- A segment of strings sharing a start that falsifies `pred` contributes
nothing to a filter by `pred`. -/
theorem filter_eq_nil_of_start {l : List String} {c : Char}
    (hl : ∀ x ∈ l, ∃ r : List Char, x.data = '-' :: c :: r)
    {pred : String → Bool}
    (hpred : ∀ (x : String) (r : List Char), x.data = '-' :: c :: r →
      pred x = false) :
    l.filter pred = [] :=
  List.filter_eq_nil_iff.2 (fun x hx => by
    rcases hl x hx with ⟨r, hr⟩
    simp [hpred x r hr])

/-- The mode flags are exactly what a filter for mode flags keeps of the
whole flag region: no other emitted flag is spelled `-c`, `-C` or `-d`. -/
theorem flag_region_filter_mode (o : NVGTCompilerOptions) :
    (flag_region o).filter isModeFlag = mode_flags o := by
  have hm : (mode_flags o).filter isModeFlag = mode_flags o := by
    unfold mode_flags
    split_ifs <;> decide
  have hv : (verbosity_flags o).filter isModeFlag = [] := by
    unfold verbosity_flags
    split_ifs <;> decide
  have hno : ∀ (x : String) (r : List Char), x.data = '-' :: 'p' :: r ∨
      x.data = '-' :: 'w' :: r ∨ x.data = '-' :: 'a' :: r ∨
      x.data = '-' :: 'A' :: r ∨ x.data = '-' :: 'i' :: r ∨
      x.data = '-' :: 'I' :: r ∨ x.data = '-' :: 's' :: r ∨
      x.data = '-' :: 'S' :: r → isModeFlag x = false := by
    intro x r h
    rcases h with h | h | h | h | h | h | h | h <;>
      exact isModeFlag_eq_false_of_start h (by decide) (by decide) (by decide)
  unfold flag_region
  rw [List.filter_append, List.filter_append, List.filter_append,
    List.filter_append, List.filter_append, List.filter_append,
    List.filter_append, List.filter_append, List.filter_append, hm, hv,
    filter_eq_nil_of_start (platform_flags_start o)
      (fun x r h => hno x r (Or.inl h)),
    filter_eq_nil_of_start (warning_flags_start o)
      (fun x r h => hno x r (Or.inr (Or.inl h))),
    filter_eq_nil_of_start (asset_flags_start o)
      (fun x r h => hno x r (Or.inr (Or.inr (Or.inl h)))),
    filter_eq_nil_of_start (document_asset_flags_start o)
      (fun x r h => hno x r (Or.inr (Or.inr (Or.inr (Or.inl h))))),
    filter_eq_nil_of_start (include_flags_start o)
      (fun x r h => hno x r (Or.inr (Or.inr (Or.inr (Or.inr (Or.inl h)))))),
    filter_eq_nil_of_start (include_dir_flags_start o)
      (fun x r h =>
        hno x r (Or.inr (Or.inr (Or.inr (Or.inr (Or.inr (Or.inl h))))))),
    filter_eq_nil_of_start (config_property_flags_start o)
      (fun x r h =>
        hno x r (Or.inr (Or.inr (Or.inr (Or.inr (Or.inr (Or.inr (Or.inl h)))))))),
    filter_eq_nil_of_start (settings_flags_start o)
      (fun x r h =>
        hno x r (Or.inr (Or.inr (Or.inr (Or.inr (Or.inr (Or.inr (Or.inr h))))))))]
  simp

/-- The verbosity flags are exactly what a filter for verbosity flags keeps
of the whole flag region: no other emitted flag is spelled `-Q` or `-q`. -/
theorem flag_region_filter_verbosity (o : NVGTCompilerOptions) :
    (flag_region o).filter isVerbosityFlag = verbosity_flags o := by
  have hm : (mode_flags o).filter isVerbosityFlag = [] := by
    unfold mode_flags
    split_ifs <;> decide
  have hv : (verbosity_flags o).filter isVerbosityFlag = verbosity_flags o := by
    unfold verbosity_flags
    split_ifs <;> decide
  have hno : ∀ (x : String) (r : List Char), x.data = '-' :: 'p' :: r ∨
      x.data = '-' :: 'w' :: r ∨ x.data = '-' :: 'a' :: r ∨
      x.data = '-' :: 'A' :: r ∨ x.data = '-' :: 'i' :: r ∨
      x.data = '-' :: 'I' :: r ∨ x.data = '-' :: 's' :: r ∨
      x.data = '-' :: 'S' :: r → isVerbosityFlag x = false := by
    intro x r h
    rcases h with h | h | h | h | h | h | h | h <;>
      exact isVerbosityFlag_eq_false_of_start h (by decide) (by decide)
  unfold flag_region
  rw [List.filter_append, List.filter_append, List.filter_append,
    List.filter_append, List.filter_append, List.filter_append,
    List.filter_append, List.filter_append, List.filter_append, hm, hv,
    filter_eq_nil_of_start (platform_flags_start o)
      (fun x r h => hno x r (Or.inl h)),
    filter_eq_nil_of_start (warning_flags_start o)
      (fun x r h => hno x r (Or.inr (Or.inl h))),
    filter_eq_nil_of_start (asset_flags_start o)
      (fun x r h => hno x r (Or.inr (Or.inr (Or.inl h)))),
    filter_eq_nil_of_start (document_asset_flags_start o)
      (fun x r h => hno x r (Or.inr (Or.inr (Or.inr (Or.inl h))))),
    filter_eq_nil_of_start (include_flags_start o)
      (fun x r h => hno x r (Or.inr (Or.inr (Or.inr (Or.inr (Or.inl h)))))),
    filter_eq_nil_of_start (include_dir_flags_start o)
      (fun x r h =>
        hno x r (Or.inr (Or.inr (Or.inr (Or.inr (Or.inr (Or.inl h))))))),
    filter_eq_nil_of_start (config_property_flags_start o)
      (fun x r h =>
        hno x r (Or.inr (Or.inr (Or.inr (Or.inr (Or.inr (Or.inr (Or.inl h)))))))),
    filter_eq_nil_of_start (settings_flags_start o)
      (fun x r h =>
        hno x r (Or.inr (Or.inr (Or.inr (Or.inr (Or.inr (Or.inr (Or.inr h))))))))]
  simp

/-! ### Claims C1 – C4: the argument vector builder -/

/-- C1: for every binary path, script path and options value,
`build_command` returns the argument vector in exactly the fixed order of
spec §4.2 — binary path first, then the mode, platform, verbosity and
warning flag groups, the asset, document-asset, include, include-directory
and config-property flags each in input/insertion order, the settings-file
flag, the script path after all flags, and finally the script-argument
tail. -/
theorem build_command_fixed_order (b s : String) (o : NVGTCompilerOptions) :
    NVGTCompiler.build_command b s o =
      [b] ++ mode_flags o ++ platform_flags o ++ verbosity_flags o ++
      warning_flags o ++ asset_flags o ++ document_asset_flags o ++
      include_flags o ++ include_dir_flags o ++ config_property_flags o ++
      settings_flags o ++ [s] ++ script_args_tail o := by
  rw [build_command_decomp]
  simp [flag_region, List.append_assoc]

/-- C2 counterexample: with `compile_release` set and a script argument
spelled `-C`, the built vector contains the release flag and the string
`-C`, so as stated over all options the claim fails. -/
theorem build_command_mode_counterexample :
    NVGTCompiler.build_command "nvgt" "game.nvgt"
        { compile_release := true, script_args := ["-C"] } =
      ["nvgt", "-c", "game.nvgt", "--", "-C"] ∧
    "-C" ∈ NVGTCompiler.build_command "nvgt" "game.nvgt"
        { compile_release := true, script_args := ["-C"] } := by
  decide

/-- C2 (amended): restricted to the flag region the builder emits between
the binary path and the script path — with `compile_release` set that
region contains `-c` and neither `-C` nor `-d`; it never contains more than
one mode flag, and none when no compilation mode is requested.  (The script
path and script arguments are copied verbatim and may spell a mode flag.) -/
theorem build_command_mode_flags_exclusive (b s : String)
    (o : NVGTCompilerOptions) :
    NVGTCompiler.build_command b s o =
      [b] ++ flag_region o ++ [s] ++ script_args_tail o ∧
    ((flag_region o).filter isModeFlag).length ≤ 1 ∧
    (o.compile_release = true →
      "-c" ∈ flag_region o ∧ "-C" ∉ flag_region o ∧ "-d" ∉ flag_region o) ∧
    (o.compile_release = false → o.compile_debug = false →
      o.run_with_debugger = false → (flag_region o).filter isModeFlag = []) := by
  refine ⟨build_command_decomp b s o, ?_, ?_, ?_⟩
  · rw [flag_region_filter_mode]
    unfold mode_flags
    split_ifs <;> simp
  · intro hcr
    have hmf : mode_flags o = ["-c"] := by simp [mode_flags, hcr]
    refine ⟨?_, ?_, ?_⟩
    · have hc : "-c" ∈ mode_flags o := by
        rw [hmf]
        exact List.mem_singleton.2 rfl
      simp only [flag_region, List.mem_append]
      tauto
    · intro hC
      have hmem : "-C" ∈ (flag_region o).filter isModeFlag :=
        List.mem_filter.2 ⟨hC, by decide⟩
      rw [flag_region_filter_mode, hmf] at hmem
      exact absurd hmem (by decide)
    · intro hd
      have hmem : "-d" ∈ (flag_region o).filter isModeFlag :=
        List.mem_filter.2 ⟨hd, by decide⟩
      rw [flag_region_filter_mode, hmf] at hmem
      exact absurd hmem (by decide)
  · intro h1 h2 h3
    rw [flag_region_filter_mode]
    simp [mode_flags, h1, h2, h3]

/-- C2 witness: the amended statement at a concrete release request. -/
theorem build_command_mode_flags_exclusive_witness :
    "-c" ∈ flag_region { compile_release := true, assets := ["snd.ogg"] } ∧
    "-C" ∉ flag_region { compile_release := true, assets := ["snd.ogg"] } ∧
    "-d" ∉ flag_region { compile_release := true, assets := ["snd.ogg"] } :=
  (build_command_mode_flags_exclusive "nvgt" "game.nvgt"
    { compile_release := true, assets := ["snd.ogg"] }).2.2.1 rfl

/-- C3 counterexample: with both `quiet` and `super_quiet` set and a script
argument spelled `-q`, the built vector contains both `-Q` and `-q`, so as
stated over all options the claim fails. -/
theorem build_command_verbosity_counterexample :
    NVGTCompiler.build_command "nvgt" "game.nvgt"
        { quiet := true, super_quiet := true, script_args := ["-q"] } =
      ["nvgt", "-Q", "game.nvgt", "--", "-q"] ∧
    "-Q" ∈ NVGTCompiler.build_command "nvgt" "game.nvgt"
        { quiet := true, super_quiet := true, script_args := ["-q"] } ∧
    "-q" ∈ NVGTCompiler.build_command "nvgt" "game.nvgt"
        { quiet := true, super_quiet := true, script_args := ["-q"] } := by
  decide

/-- C3 (amended): restricted to the flag region the builder emits between
the binary path and the script path — it contains at most one verbosity
flag, and when both `quiet` and `super_quiet` are requested the single
emitted verbosity flag is `-Q`. -/
theorem build_command_verbosity_exclusive (b s : String)
    (o : NVGTCompilerOptions) :
    NVGTCompiler.build_command b s o =
      [b] ++ flag_region o ++ [s] ++ script_args_tail o ∧
    ((flag_region o).filter isVerbosityFlag).length ≤ 1 ∧
    (o.quiet = true → o.super_quiet = true →
      (flag_region o).filter isVerbosityFlag = ["-Q"]) := by
  refine ⟨build_command_decomp b s o, ?_, ?_⟩
  · rw [flag_region_filter_verbosity]
    unfold verbosity_flags
    split_ifs <;> simp
  · intro _ hsq
    rw [flag_region_filter_verbosity]
    simp [verbosity_flags, hsq]

/-- C3 witness: the amended statement at a concrete doubly-quiet request. -/
theorem build_command_verbosity_exclusive_witness :
    (flag_region { quiet := true, super_quiet := true }).filter isVerbosityFlag =
      ["-Q"] :=
  (build_command_verbosity_exclusive "nvgt" "game.nvgt"
    { quiet := true, super_quiet := true }).2.2 rfl rfl

/-- C4: with non-empty `script_args` the built vector ends in the literal
separator `--` followed by the script arguments themselves, unmodified;
with empty `script_args` no separator is emitted and the script path is the
last element. -/
theorem build_command_script_args_tail (b s : String)
    (o : NVGTCompilerOptions) :
    (o.script_args ≠ [] →
      NVGTCompiler.build_command b s o =
        ([b] ++ flag_region o ++ [s]) ++ ["--"] ++ o.script_args) ∧
    (o.script_args = [] →
      NVGTCompiler.build_command b s o = [b] ++ flag_region o ++ [s] ∧
      (NVGTCompiler.build_command b s o).getLast? = some s) := by
  constructor
  · intro h
    rw [build_command_decomp]
    simp [script_args_tail, h, List.append_assoc]
  · intro h
    have hb : NVGTCompiler.build_command b s o = [b] ++ flag_region o ++ [s] := by
      rw [build_command_decomp]
      simp [script_args_tail, h]
    refine ⟨hb, ?_⟩
    rw [hb]
    exact List.getLast?_concat _

/-- C4 witness: the spec's own example `script_args = ["--foo", "bar"]`, and
the empty-tail case. -/
theorem build_command_script_args_tail_witness :
    NVGTCompiler.build_command "nvgt" "game.nvgt" { script_args := ["--foo", "bar"] } =
      (["nvgt"] ++ flag_region { script_args := ["--foo", "bar"] } ++ ["game.nvgt"]) ++
        ["--"] ++ ["--foo", "bar"] ∧
    (NVGTCompiler.build_command "nvgt" "game.nvgt" {}).getLast? = some "game.nvgt" :=
  ⟨(build_command_script_args_tail "nvgt" "game.nvgt"
      { script_args := ["--foo", "bar"] }).1 (by decide),
   ((build_command_script_args_tail "nvgt" "game.nvgt" {}).2 rfl).2⟩

/-! ### Claims C5 – C7 and C10: the invocation executor -/

/-- C5: invoking run/compile/debug with a script path that does not exist
short-circuits: the result has `success = false`, a non-null error message
and the sentinel return code `-1`, and no child process is spawned — the
result does not depend on the spawn behaviour at all. -/
theorem execute_missing_script_short_circuit (b s : String)
    (o : NVGTCompilerOptions) (spawn spawn' : String → SpawnOutcome) :
    NVGTCompiler.run_script b s o false spawn =
      CompilationResult.error_result ("Script file not found: " ++ s) ∧
    NVGTCompiler.compile_release b s o false spawn =
      CompilationResult.error_result ("Script file not found: " ++ s) ∧
    NVGTCompiler.compile_debug b s o false spawn =
      CompilationResult.error_result ("Script file not found: " ++ s) ∧
    NVGTCompiler.debug_script b s o false spawn =
      CompilationResult.error_result ("Script file not found: " ++ s) ∧
    (NVGTCompiler.run_script b s o false spawn).success = false ∧
    (NVGTCompiler.run_script b s o false spawn).error =
      some ("Script file not found: " ++ s) ∧
    (NVGTCompiler.run_script b s o false spawn).return_code = -1 ∧
    NVGTCompiler.run_script b s o false spawn =
      NVGTCompiler.run_script b s o false spawn' := by
  refine ⟨rfl, rfl, rfl, rfl, rfl, rfl, rfl, rfl⟩

/-- C6: when the script exists and the spawned process runs to completion,
the result succeeds exactly when the exit code is zero; on a nonzero exit
the actual exit code is preserved, the error message stays absent, and the
captured output streams are still returned. -/
theorem execute_completed_exit_status (b s : String) (o : NVGTCompilerOptions)
    (spawn : String → SpawnOutcome) (rc : Int) (out err : String)
    (h : spawn (quoteJoin (NVGTCompiler.build_command b s o)) =
      .completed rc out err) :
    ((NVGTCompiler.execute_command b s o true spawn).success = true ↔ rc = 0) ∧
    (rc ≠ 0 →
      (NVGTCompiler.execute_command b s o true spawn).success = false ∧
      (NVGTCompiler.execute_command b s o true spawn).return_code = rc ∧
      (NVGTCompiler.execute_command b s o true spawn).error = none ∧
      (NVGTCompiler.execute_command b s o true spawn).stdout = out ∧
      (NVGTCompiler.execute_command b s o true spawn).stderr = err) := by
  have hr : NVGTCompiler.execute_command b s o true spawn =
      CompilationResult.success_result out err rc
        (quoteJoin (NVGTCompiler.build_command b s o)) := by
    simp [NVGTCompiler.execute_command, h]
  rw [hr]
  constructor
  · simp [CompilationResult.success_result]
  · intro hrc
    simp [CompilationResult.success_result, hrc]

/-- C6 witness: a process exiting with code 2 yields a failed result with
exit code 2, no error message, and its stderr preserved. -/
theorem execute_completed_exit_status_witness :
    ((2 : Int) ≠ 0) ∧
    (NVGTCompiler.execute_command "nvgt" "game.nvgt" {} true
        (fun _ => .completed 2 "" "parse error")).success = false ∧
    (NVGTCompiler.execute_command "nvgt" "game.nvgt" {} true
        (fun _ => .completed 2 "" "parse error")).return_code = 2 ∧
    (NVGTCompiler.execute_command "nvgt" "game.nvgt" {} true
        (fun _ => .completed 2 "" "parse error")).error = none ∧
    (NVGTCompiler.execute_command "nvgt" "game.nvgt" {} true
        (fun _ => .completed 2 "" "parse error")).stderr = "parse error" := by
  have h := execute_completed_exit_status "nvgt" "game.nvgt" {}
    (fun _ => .completed 2 "" "parse error") 2 "" "parse error" rfl
  have h2 := h.2 (by decide)
  exact ⟨by decide, h2.1, h2.2.1, h2.2.2.1, h2.2.2.2.2⟩

/-- C7: the executor and the version/help queries return every failure as a
`CompilationResult` value — the preflight failure and a raised spawn
exception both yield a result with a populated error message and the
sentinel return code `-1`; no failure escapes as an exception (the
embedding is a total function into `CompilationResult`). -/
theorem execute_failures_as_values (b s : String) (o : NVGTCompilerOptions)
    (spawn : String → SpawnOutcome) (e : String) :
    (NVGTCompiler.execute_command b s o false spawn).error =
      some ("Script file not found: " ++ s) ∧
    (NVGTCompiler.execute_command b s o false spawn).return_code = -1 ∧
    (spawn (quoteJoin (NVGTCompiler.build_command b s o)) = .raised e →
      NVGTCompiler.execute_command b s o true spawn =
        CompilationResult.error_result ("Failed to execute command: " ++ e) ∧
      (NVGTCompiler.execute_command b s o true spawn).return_code = -1) ∧
    (spawn (quoteJoin [b, "-V"]) = .raised e →
      (NVGTCompiler.get_version b spawn).error =
        some ("Failed to get version: " ++ e) ∧
      (NVGTCompiler.get_version b spawn).return_code = -1) ∧
    (spawn (quoteJoin [b, "-h"]) = .raised e →
      (NVGTCompiler.get_help b spawn).error =
        some ("Failed to get help: " ++ e) ∧
      (NVGTCompiler.get_help b spawn).return_code = -1) := by
  refine ⟨rfl, rfl, ?_, ?_, ?_⟩
  · intro h
    have hr : NVGTCompiler.execute_command b s o true spawn =
        CompilationResult.error_result ("Failed to execute command: " ++ e) := by
      simp [NVGTCompiler.execute_command, h]
    exact ⟨hr, by rw [hr]; rfl⟩
  · intro h
    have hr : NVGTCompiler.get_version b spawn =
        CompilationResult.error_result ("Failed to get version: " ++ e) := by
      simp [NVGTCompiler.get_version, h]
    rw [hr]
    exact ⟨rfl, rfl⟩
  · intro h
    have hr : NVGTCompiler.get_help b spawn =
        CompilationResult.error_result ("Failed to get help: " ++ e) := by
      simp [NVGTCompiler.get_help, h]
    rw [hr]
    exact ⟨rfl, rfl⟩

/-- C7 witness: a spawn that always raises is returned as an error value by
the executor and by the version query. -/
theorem execute_failures_as_values_witness :
    NVGTCompiler.execute_command "nvgt" "game.nvgt" {} true
        (fun _ => .raised "spawn failed") =
      CompilationResult.error_result ("Failed to execute command: " ++ "spawn failed") ∧
    (NVGTCompiler.get_version "nvgt" (fun _ => .raised "spawn failed")).return_code = -1 := by
  have h := execute_failures_as_values "nvgt" "game.nvgt" {}
    (fun _ => .raised "spawn failed") "spawn failed"
  exact ⟨(h.2.2.1 rfl).1, (h.2.2.2.1 rfl).2⟩

/-- C10: every preflight- or launch-failure result carries empty output
streams and an unset command field, while a result from an actually spawned
process records the executed (quoted) command line. -/
theorem failure_results_empty_output (b s : String) (o : NVGTCompilerOptions)
    (spawn : String → SpawnOutcome) (msg e : String) (rc : Int)
    (out err : String) :
    (CompilationResult.error_result msg).stdout = "" ∧
    (CompilationResult.error_result msg).stderr = "" ∧
    (CompilationResult.error_result msg).command = none ∧
    (NVGTCompiler.execute_command b s o false spawn).stdout = "" ∧
    (NVGTCompiler.execute_command b s o false spawn).stderr = "" ∧
    (NVGTCompiler.execute_command b s o false spawn).command = none ∧
    (spawn (quoteJoin (NVGTCompiler.build_command b s o)) = .raised e →
      (NVGTCompiler.execute_command b s o true spawn).stdout = "" ∧
      (NVGTCompiler.execute_command b s o true spawn).stderr = "" ∧
      (NVGTCompiler.execute_command b s o true spawn).command = none) ∧
    (spawn (quoteJoin (NVGTCompiler.build_command b s o)) =
        .completed rc out err →
      (NVGTCompiler.execute_command b s o true spawn).command =
        some (quoteJoin (NVGTCompiler.build_command b s o))) := by
  refine ⟨rfl, rfl, rfl, rfl, rfl, rfl, ?_, ?_⟩
  · intro h
    have hr : NVGTCompiler.execute_command b s o true spawn =
        CompilationResult.error_result ("Failed to execute command: " ++ e) := by
      simp [NVGTCompiler.execute_command, h]
    rw [hr]
    exact ⟨rfl, rfl, rfl⟩
  · intro h
    have hr : NVGTCompiler.execute_command b s o true spawn =
        CompilationResult.success_result out err rc
          (quoteJoin (NVGTCompiler.build_command b s o)) := by
      simp [NVGTCompiler.execute_command, h]
    rw [hr]
    rfl

/-- C10 witness: the two conditional parts at a concrete raising spawn and a
concrete completing spawn. -/
theorem failure_results_empty_output_witness :
    (NVGTCompiler.execute_command "nvgt" "game.nvgt" {} true
        (fun _ => .raised "boom")).command = none ∧
    (NVGTCompiler.execute_command "nvgt" "game.nvgt" {} true
        (fun _ => .completed 0 "ok" "")).command =
      some (quoteJoin (NVGTCompiler.build_command "nvgt" "game.nvgt" {})) := by
  refine ⟨?_, ?_⟩
  · exact ((failure_results_empty_output "nvgt" "game.nvgt" {}
      (fun _ => .raised "boom") "m" "boom" 0 "" "").2.2.2.2.2.2.1 rfl).2.2
  · exact (failure_results_empty_output "nvgt" "game.nvgt" {}
      (fun _ => .completed 0 "ok" "") "m" "e" 0 "ok" "").2.2.2.2.2.2.2 rfl

/-! ### Claims C8 and C9: binary resolution and the consuming adapter -/

/-- C8 counterexample: the explicitly supplied path `""` is not an existing
regular file, yet resolution succeeds by falling back to the Windows
default location; and the adapter constructor accepts a non-empty explicit
path that names no file at all instead of refusing to proceed. -/
theorem detect_explicit_path_counterexample :
    detect_nvgt_installation
        { system := "windows", is_file := fun _ => false,
          file_exists := fun p => p == windowsDefaultPath } (some "") =
      some windowsDefaultPath ∧
    FileSystem.is_file
        { system := "windows", is_file := fun _ => false,
          file_exists := fun p => p == windowsDefaultPath } "" = false ∧
    NVGTCompiler.init
        { system := "linux", is_file := fun _ => false,
          file_exists := fun _ => false } (some "/missing/nvgt") =
      Except.ok "/missing/nvgt" := by
  refine ⟨rfl, rfl, rfl⟩

/-- C8 (amended): for every NON-EMPTY explicitly supplied path, resolution
succeeds iff the path names an existing regular file, and never consults
the platform default locations (the result only depends on the filesystem's
view of that path); the constructor fails fast exactly when it ends up with
no binary — it raises iff auto-detection fails when called without an
explicit path, and accepts any non-empty explicit path unvalidated. -/
theorem detect_explicit_path_resolution (fs fs' : FileSystem) (p : String)
    (h : p ≠ "") :
    (detect_nvgt_installation fs (some p) =
      if fs.is_file p && fs.file_exists p then some p else none) ∧
    (fs.is_file p = fs'.is_file p → fs.file_exists p = fs'.file_exists p →
      detect_nvgt_installation fs (some p) =
        detect_nvgt_installation fs' (some p)) ∧
    ((NVGTCompiler.init fs).isOk = (detect_nvgt_installation fs).isSome) ∧
    NVGTCompiler.init fs (some p) = Except.ok p := by
  refine ⟨?_, ?_, ?_, ?_⟩
  · unfold detect_nvgt_installation
    simp [optTruthy, h]
  · intro h1 h2
    unfold detect_nvgt_installation
    simp [optTruthy, h, h1, h2]
  · unfold NVGTCompiler.init detect_nvgt_installation
    simp only [optTruthy, Bool.false_eq_true, if_false]
    split_ifs <;>
      simp_all [optTruthy, Except.isOk, Except.toBool, windowsDefaultPath,
        darwinDefaultPath]
  · unfold NVGTCompiler.init
    simp [optTruthy, h]

/-- C8 witness: the amended statement at a concrete valid explicit path. -/
theorem detect_explicit_path_resolution_witness :
    NVGTCompiler.init
        { system := "linux", is_file := fun p => p == "/usr/bin/nvgt",
          file_exists := fun p => p == "/usr/bin/nvgt" }
        (some "/usr/bin/nvgt") = Except.ok "/usr/bin/nvgt" :=
  (detect_explicit_path_resolution
    { system := "linux", is_file := fun p => p == "/usr/bin/nvgt",
      file_exists := fun p => p == "/usr/bin/nvgt" }
    { system := "linux", is_file := fun p => p == "/usr/bin/nvgt",
      file_exists := fun p => p == "/usr/bin/nvgt" }
    "/usr/bin/nvgt" (by decide)).2.2.2

/-- C9: on a host that is neither Windows nor macOS (in particular Linux),
auto-detection with no explicit path always returns no result — whatever
exists on disk, including the installer's Linux location
`NVGTBuild.linux_install_path` — and constructing the adapter without an
explicit path therefore always fails there. -/
theorem autodetect_unsupported_host (fs : FileSystem)
    (h1 : fs.system ≠ "windows") (h2 : fs.system ≠ "darwin") :
    detect_nvgt_installation fs none = none ∧
    NVGTCompiler.init fs none = Except.error
      "NVGT installation not found. Please ensure NVGT is installed and accessible." := by
  have hd : detect_nvgt_installation fs none = none := by
    unfold detect_nvgt_installation
    simp [optTruthy, h1, h2]
  refine ⟨hd, ?_⟩
  unfold NVGTCompiler.init
  simp [optTruthy, hd]

/-- C9 witness: a Linux host on which the installer's install location
`/opt/nvgt` is populated, yet detection finds nothing and construction
fails. -/
theorem autodetect_unsupported_host_witness :
    detect_nvgt_installation
        { system := "linux", is_file := fun _ => true,
          file_exists := fun p => p == NVGTBuild.linux_install_path ++ "/nvgt" }
        none = none ∧
    NVGTCompiler.init
        { system := "linux", is_file := fun _ => true,
          file_exists := fun p => p == NVGTBuild.linux_install_path ++ "/nvgt" }
        none = Except.error
      "NVGT installation not found. Please ensure NVGT is installed and accessible." :=
  autodetect_unsupported_host
    { system := "linux", is_file := fun _ => true,
      file_exists := fun p => p == NVGTBuild.linux_install_path ++ "/nvgt" }
    (by decide) (by decide)
